import Mathlib

/-!
Shallow embedding of the session-termination subsystem of
peppelinux/oidcendpoint: RP-initiated logout with front- and back-channel
notification (src/oidcendpoint/oidc/session.py) and token introspection
(src/oidcendpoint/oauth2/introspection.py).

External collaborators (session store, client registry, cookie decoder,
JWT signing, HTTP egress) are modelled at the interfaces the spec gives
them in section 6; everything else is translated from the Python source.
-/

set_option autoImplicit false

namespace Oidc

/-- Error kinds surfaced by the logout endpoint.  `CookieError` is the
`InvalidRequest('Cookie error')` raised on an IndexError from the cookie
dealer; `SessionMismatch` is `ValueError('Wrong ID Token hint')`;
`UnknownSession` is `ValueError("Can't find any corresponding session")`;
`UnregisteredRedirectURI` is `ValueError('Unregistered post_logout_redirect_uri')`;
`SignatureVerificationFailure` is the verification error from
`verify_compact`; `internal` stands for any other uncaught Python
exception (KeyError / IndexError escaping the shown code). -/
inductive LogoutError where
  | CookieError
  | SessionMismatch
  | UnknownSession
  | UnregisteredRedirectURI
  | SignatureVerificationFailure
  | internal
deriving DecidableEq, Repr

/-- A session record as the orchestration code reads it: only
`session['authn_req']['client_id']` is consulted, plus a revocation mark
kept by the session store (spec section 6, `revoke(sid)`). -/
structure SessionRec where
  client_id : String
  revoked : Bool
deriving DecidableEq, Repr

/-- A client registration record (`cdb` entry) with the fields the logout
code reads.  Registered post-logout redirect URIs are stored in split
form, base plus optional query, the shape the registration endpoint of
this repository stores and `process_request` compares against. -/
structure ClientInfo where
  client_id : String
  backchannel_logout_uri : Option String
  frontchannel_logout_uri : Option String
  frontchannel_logout_session_required : Option Bool
  post_logout_redirect_uris : List (String × Option String)
  id_token_signed_response_alg : Option String
deriving DecidableEq, Repr

/-- Python dict lookup on a string-keyed association list
(first binding wins; Python dicts have unique keys). -/
def alookup {α : Type} (k : String) : List (String × α) → Option α
  | [] => none
  | (k', v) :: rest => if k' = k then some v else alookup k rest

/-- Python dict assignment `d[k] = v`: overwrite in place if the key is
present, else append at the end (dicts preserve insertion order). -/
def dictInsert {α : Type} (k : String) (v : α) : List (String × α) → List (String × α)
  | [] => [(k, v)]
  | (k', v') :: rest =>
    if k' = k then (k, v) :: rest else (k', v') :: dictInsert k v rest

/-- `urllib.parse.splitquery`: split a URL at its last `?` into
(everything before, the query after); a URL with no `?` keeps a `none`
query.  Implemented on the character list. -/
def splitLastQ : List Char → Option (List Char × List Char)
  | [] => none
  | c :: rest =>
    match splitLastQ rest with
    | some (b, q) => some (c :: b, q)
    | none => if c = '?' then some ([], rest) else none

/-- `urllib.parse.splitquery` on strings. -/
def splitquery (u : String) : String × Option String :=
  match splitLastQ u.data with
  | some (b, q) => (String.mk b, some (String.mk q))
  | none => (u, none)

/-- Uppercase hexadecimal digit, as Python's `quote` emits. -/
def hexDigitChar (n : Nat) : Char :=
  if n < 10 then Char.ofNat (48 + n) else Char.ofNat (55 + n)

/-- UTF-8 bytes of a character (Python `quote_plus` percent-encodes the
UTF-8 encoding of non-safe characters). -/
def utf8Bytes (c : Char) : List Nat :=
  let n := c.toNat
  if n < 128 then [n]
  else if n < 2048 then [192 + n / 64, 128 + n % 64]
  else if n < 65536 then [224 + n / 4096, 128 + (n / 64) % 64, 128 + n % 64]
  else [240 + n / 262144, 128 + (n / 4096) % 64, 128 + (n / 64) % 64, 128 + n % 64]

/-- Percent-encoding of one byte. -/
def percentByte (b : Nat) : String :=
  "%" ++ String.mk [hexDigitChar (b / 16), hexDigitChar (b % 16)]

/-- One character under Python's `urllib.parse.quote_plus`: ASCII
letters, digits and `_.-~` pass through, a space becomes `+`, everything
else is percent-encoded bytewise. -/
def quotePlusChar (c : Char) : String :=
  if c.isAlphanum || c = '_' || c = '.' || c = '-' || c = '~' then String.singleton c
  else if c = ' ' then "+"
  else String.join ((utf8Bytes c).map percentByte)

/-- Python's `urllib.parse.quote_plus` on a string. -/
def quote_plus (s : String) : String :=
  String.join (s.data.map quotePlusChar)

/-- Python's `urllib.parse.urlencode` over an ordered dict of string
pairs. -/
def urlencode (ps : List (String × String)) : String :=
  String.intercalate "&" (ps.map fun p => quote_plus p.1 ++ "=" ++ quote_plus p.2)

/-- The post-logout redirect value carried in the confirmation payload.
`process_request` puts either the request's URI string (when present) or
the first registered entry, which is a (base, query) pair, into the
payload; this sum mirrors that Python dynamic typing. -/
inductive UriVal where
  | str (u : String)
  | pair (base : String) (q : Option String)
deriving DecidableEq, Repr

/-- Payload of the logout confirmation token built in `process_request`:
`{'sid': _sid, 'client_id': client_id, 'redirect_uri': _uri}`. -/
structure ConfirmPayload where
  sid : String
  client_id : String
  redirect_uri : UriVal
deriving DecidableEq, Repr

/-- Modelled from the spec: the Token Service Adapter's signed JWT
(section 6 `sign`/`verify`).  The signature is idealized as the pair of
the signing key and the payload it covered, so that verification is
recomputing the pair over the token's current payload: any token whose
payload no longer matches what was signed fails verification, which is
exactly the tamper-evidence contract the spec gives the adapter. -/
structure SignedJWT where
  iss : String
  aud : String
  alg : String
  payload : ConfirmPayload
  tag : Nat × ConfirmPayload
deriving DecidableEq, Repr

/-- Modelled from the spec: Token Service Adapter `sign` — package the
payload with issuer, audience, algorithm and a signature over the
payload by the provider's signing key. -/
def jwt_pack (key : Nat) (iss aud alg : String) (p : ConfirmPayload) : SignedJWT :=
  { iss := iss, aud := aud, alg := alg, payload := p, tag := (key, p) }

/-- Modelled from the spec: Token Service Adapter `verify` — check the
declared algorithm and recompute the signature over the token's payload;
mismatch yields `SignatureVerificationFailure`. -/
def jwt_verify (key : Nat) (alg : String) (t : SignedJWT) :
    Except LogoutError ConfirmPayload :=
  if t.alg = alg ∧ t.tag = (key, t.payload) then Except.ok t.payload
  else Except.error LogoutError.SignatureVerificationFailure

/-- The endpoint context as the logout code reads it: issuer, session
store, client registry, the SSO index maps (spec section 6), the
advertised id-token signing algorithms, the endpoint's configured
`signing_alg` kwarg, the provider signing key (idealized), and the
optional configured post-logout page. -/
structure EndpointContext where
  issuer : String
  sdb : List (String × SessionRec)
  cdb : List (String × ClientInfo)
  sso_sids_by_sub : String → List String
  sso_uid_by_sid : String → Option String
  sso_sids_by_uid : String → List String
  sso_sub_by_sid : String → Option String
  id_token_signing_alg_values_supported : List String
  signing_alg : String
  signing_key : Nat
  post_logout_page : Option String

/-- The end-session request as `process_request` reads it: whether an
`id_token_hint` is present (already verified by `parse_request`, so the
model carries its `sub` claim), the optional `post_logout_redirect_uri`
and the optional `state`. -/
structure EndSessionReq where
  id_token_hint_sub : Option String
  post_logout_redirect_uri : Option String
  state : Option String
deriving DecidableEq, Repr

/-- Outcome of the cookie dealer's `get_cookie_value` plus the base64/
JSON decoding of the sid: `indexError` is the IndexError path (turned
into `InvalidRequest('Cookie error')`), `missing` is the KeyError path
(no cookie, `part = None`), `ok sid` is a decoded cookie. -/
inductive CookieResult where
  | indexError
  | missing
  | ok (sid : String)
deriving DecidableEq, Repr

/-- Lines 191 to 214 of session.py: decode the cookie into `_sid` (empty
when absent), then reconcile with the `id_token_hint`: the hint's sid is
`get_sids_by_sub(sub)[0]`; if a cookie sid exists and differs, raise
`Wrong ID Token hint`; if only the hint exists, it becomes the sid. -/
def resolve_sid (ctx : EndpointContext) (req : EndSessionReq) (cookie : CookieResult) :
    Except LogoutError String := do
  let _sid ← match cookie with
    | CookieResult.indexError => Except.error LogoutError.CookieError
    | CookieResult.missing => Except.ok ""
    | CookieResult.ok s => Except.ok s
  match req.id_token_hint_sub with
  | none => Except.ok _sid
  | some sub =>
    match (ctx.sso_sids_by_sub sub).head? with
    | none => Except.error LogoutError.internal
    | some ith_sid =>
      if _sid ≠ "" then
        if ith_sid ≠ _sid then Except.error LogoutError.SessionMismatch
        else Except.ok _sid
      else Except.ok ith_sid

/-- Lines 228 to 236 of session.py: with no `post_logout_redirect_uri`
in the request take the client's first registered entry; otherwise split
the request URI at its query and require exact membership of the split
pair among the registered entries, returning the request URI unchanged
on success and `Unregistered post_logout_redirect_uri` otherwise. -/
def resolve_redirect (cinfo : ClientInfo) (req_uri : Option String) :
    Except LogoutError UriVal :=
  match req_uri with
  | none =>
    match cinfo.post_logout_redirect_uris.head? with
    | some p => Except.ok (UriVal.pair p.1 p.2)
    | none => Except.error LogoutError.internal
  | some u =>
    if splitquery u ∈ cinfo.post_logout_redirect_uris then Except.ok (UriVal.str u)
    else Except.error LogoutError.UnregisteredRedirectURI

/-- `Session.process_request` (session.py lines 179 to 246): resolve the
effective sid, look the session up (`Can't find any corresponding
session` on a miss), read the client registration, validate or default
the post-logout redirect URI, and pack the self-addressed confirmation
token over `{sid, client_id, redirect_uri}` with the endpoint's
`signing_alg`. -/
def process_request (ctx : EndpointContext) (req : EndSessionReq) (cookie : CookieResult) :
    Except LogoutError SignedJWT := do
  let _sid ← resolve_sid ctx req cookie
  let session ← match alookup _sid ctx.sdb with
    | some s => Except.ok s
    | none => Except.error LogoutError.UnknownSession
  let client_id := session.client_id
  let _cinfo ← match alookup client_id ctx.cdb with
    | some c => Except.ok c
    | none => Except.error LogoutError.internal
  let _uri ← resolve_redirect _cinfo req.post_logout_redirect_uri
  let payload : ConfirmPayload :=
    { sid := _sid, client_id := client_id, redirect_uri := _uri }
  Except.ok (jwt_pack ctx.signing_key ctx.issuer ctx.issuer ctx.signing_alg payload)

/-- `Session.unpack_signed_jwt` (session.py lines 154 to 163): verify a
signed JWT against the provider's signing key for the endpoint's
configured `signing_alg` and return its claims. -/
def unpack_signed_jwt (ctx : EndpointContext) (t : SignedJWT) :
    Except LogoutError ConfirmPayload :=
  jwt_verify ctx.signing_key ctx.signing_alg t

/-- `do_front_channel_logout_iframe` (session.py lines 27 to 48): read
the registered front-channel URI (KeyError, hence `none`, if absent),
default `frontchannel_logout_session_required` to false, and render the
iframe, appending `urlencode({'iss': iss, 'sid': sid})` as the query
when the session parameters are required. -/
def do_front_channel_logout_iframe (cinfo : ClientInfo) (iss sid : String) :
    Option String :=
  cinfo.frontchannel_logout_uri.map fun frontchannel_logout_uri =>
    let flsr := cinfo.frontchannel_logout_session_required.getD false
    if flsr then
      "<iframe src=\"" ++ frontchannel_logout_uri ++ "?" ++
        urlencode [("iss", iss), ("sid", sid)] ++ "\">"
    else
      "<iframe src=\"" ++ frontchannel_logout_uri ++ "\">"

/-- The back-channel logout token built by `do_back_channel_logout`:
a JWT signed for the notified client carrying `sub`, `sid` and the
logout event claim (the event member, the 24h lifetime and the fresh
`jti` added by the token service are fixed by the code and elided). -/
structure BackChannelToken where
  iss : String
  aud : String
  alg : String
  sub : String
  sid : String
deriving DecidableEq, Repr

/-- Modelled from the spec: the Token Service Adapter's compact
serialization of a back-channel logout token, a stand-in for the signed
compact JWT that `JWT.pack` produces. -/
def bc_token_compact (t : BackChannelToken) : String :=
  t.alg ++ "." ++ t.iss ++ "." ++ t.aud ++ "." ++ t.sub ++ "." ++ t.sid

/-- `Session.do_back_channel_logout` (session.py lines 81 to 111): read
the registered back-channel URI, pick the client's
`id_token_signed_response_alg` or the first advertised provider
algorithm, and sign a logout token for that client; returns the pair of
logout URI and token. -/
def do_back_channel_logout (ctx : EndpointContext) (cinfo : ClientInfo)
    (sub sid : String) : Except LogoutError (String × BackChannelToken) := do
  let back_channel_logout_uri ← match cinfo.backchannel_logout_uri with
    | some u => Except.ok u
    | none => Except.error LogoutError.internal
  let alg ← match cinfo.id_token_signed_response_alg with
    | some a => Except.ok a
    | none =>
      match ctx.id_token_signing_alg_values_supported.head? with
      | some a => Except.ok a
      | none => Except.error LogoutError.internal
  Except.ok (back_channel_logout_uri,
    { iss := ctx.issuer, aud := cinfo.client_id, alg := alg, sub := sub, sid := sid })

/-- One performed back-channel HTTP POST: target URL, urlencoded body,
and the status code the relying party answered with. -/
structure BCPost where
  url : String
  body : String
  status : Nat
deriving DecidableEq, Repr

/-- The `_client_sid` loop of `logout_all_clients` (session.py lines 119
to 121): `for usid in get_sids_by_uid(uid): _client_sid[client_id] = usid`,
so a later session of the same client overwrites the earlier one. -/
def build_client_sid (ctx : EndpointContext) :
    List String → List (String × String) → Except LogoutError (List (String × String))
  | [], acc => Except.ok acc
  | usid :: rest, acc =>
    match alookup usid ctx.sdb with
    | none => Except.error LogoutError.internal
    | some s => build_client_sid ctx rest (dictInsert s.client_id usid acc)

/-- The channel-selection loop of `logout_all_clients` (session.py lines
126 to 136): per `(client_id, sid)` pair, a registered
`backchannel_logout_uri` wins and contributes a back-channel entry
(via `get_sub_by_sid` and `do_back_channel_logout`); otherwise a
registered `frontchannel_logout_uri` contributes an iframe; otherwise
nothing.  The `_client_sid` keys are unique, so keeping the
back-channel entries as an ordered list matches the `bc_logouts` dict. -/
def classify_clients (ctx : EndpointContext) :
    List (String × String) →
    Except LogoutError (List (String × String × BackChannelToken) × List String)
  | [] => Except.ok ([], [])
  | (cid, csid) :: rest => do
    let cinfo ← match alookup cid ctx.cdb with
      | some c => Except.ok c
      | none => Except.error LogoutError.internal
    if cinfo.backchannel_logout_uri.isSome then do
      let sub ← match ctx.sso_sub_by_sid csid with
        | some s => Except.ok s
        | none => Except.error LogoutError.internal
      let bc ← do_back_channel_logout ctx cinfo sub csid
      let tail ← classify_clients ctx rest
      Except.ok ((cid, bc) :: tail.1, tail.2)
    else if cinfo.frontchannel_logout_uri.isSome then do
      let tail ← classify_clients ctx rest
      match do_front_channel_logout_iframe cinfo ctx.issuer csid with
      | some ifr => Except.ok (tail.1, ifr :: tail.2)
      | none => Except.error LogoutError.internal
    else
      classify_clients ctx rest

/-- The delivery loop of `logout_all_clients` (session.py lines 139 to
150): POST `logout_token=<sjwt>` to every back-channel URI in order; the
status code is only inspected for logging, so a 4xx/5xx answer neither
stops the loop nor fails the call. -/
def post_bc_logouts (httpc : String → String → Nat) :
    List (String × String × BackChannelToken) → List BCPost
  | [] => []
  | (_, url, tok) :: rest =>
    let body := "logout_token=" ++ bc_token_compact tok
    { url := url, body := body, status := httpc url body } :: post_bc_logouts httpc rest

/-- `Session.logout_all_clients` (session.py lines 113 to 152): resolve
the user of the requesting sid, collect one live sid per client over the
whole SSO index, classify every client by channel priority, deliver all
back-channel logout tokens, and return the front-channel iframes.
`httpc` is the outbound HTTP collaborator (url, body to status code);
the performed POSTs are returned alongside the iframes.  The `client_id`
argument is accepted and unused, as in the source. -/
def logout_all_clients (httpc : String → String → Nat) (ctx : EndpointContext)
    (sid client_id : String) :
    Except LogoutError (List BCPost × List String) := do
  let uid ← match ctx.sso_uid_by_sid sid with
    | some u => Except.ok u
    | none => Except.error LogoutError.internal
  let client_sid ← build_client_sid ctx (ctx.sso_sids_by_uid uid) []
  let cls ← classify_clients ctx client_sid
  Except.ok (post_bc_logouts httpc cls.1, cls.2)

/-- `Session.logout_from_client` (session.py lines 165 to 177): with a
registered `backchannel_logout_uri` the code builds the logout token via
`do_back_channel_logout` but then returns `[]` without performing any
HTTP POST (the built pair is assigned to `bc_logout` and discarded);
with only a `frontchannel_logout_uri` it returns the one iframe; with
neither it falls through and Python returns `None`.  The second
component of the result is the list of POSTs performed, always empty
because the source never calls the HTTP collaborator here. -/
def logout_from_client (ctx : EndpointContext) (sid client_id : String) :
    Except LogoutError (Option (List String) × List BCPost) := do
  let cinfo ← match alookup client_id ctx.cdb with
    | some c => Except.ok c
    | none => Except.error LogoutError.internal
  if cinfo.backchannel_logout_uri.isSome then do
    let sub ← match ctx.sso_sub_by_sid sid with
      | some s => Except.ok s
      | none => Except.error LogoutError.internal
    let _bc_logout ← do_back_channel_logout ctx cinfo sub sid
    Except.ok (some [], [])
  else if cinfo.frontchannel_logout_uri.isSome then
    match do_front_channel_logout_iframe cinfo ctx.issuer sid with
    | some ifr => Except.ok (some [ifr], [])
    | none => Except.error LogoutError.internal
  else
    Except.ok (none, [])

/-- `Session.do_verified_logout` (session.py lines 312 to 318): dispatch
to `logout_all_clients` when `alla` is set, else to
`logout_from_client`; the all-clients branch always yields a list. -/
def do_verified_logout (httpc : String → String → Nat) (ctx : EndpointContext)
    (sid client_id : String) (alla : Bool) :
    Except LogoutError (Option (List String) × List BCPost) :=
  if alla then
    (logout_all_clients httpc ctx sid client_id).map fun r => (some r.2, r.1)
  else
    logout_from_client ctx sid client_id

/-- Session store `revoke_session` (spec section 6): mark the session of
the given sid revoked; revoking an unknown sid changes nothing. -/
def revoke_session (sdb : List (String × SessionRec)) (sid : String) :
    List (String × SessionRec) :=
  sdb.map fun p => if p.1 = sid then (p.1, { p.2 with revoked := true }) else p

/-- Result of `kill_session`: the session store after revocation, the
iframes passed through, and the final redirect target. -/
structure KillResult where
  sdb : List (String × SessionRec)
  logout_iframes : Option (List String)
  response_args : String
deriving Repr

/-- `Session.kill_session` (session.py lines 248 to 268): revoke the sid
in the session store, then pick the redirect target: the request's
`post_logout_redirect_uri` (with `state` urlencoded onto it when
present), else the configured `post_logout_page`, else the issuer. -/
def kill_session (ctx : EndpointContext) (sid : String) (req : EndSessionReq)
    (fc_iframes : Option (List String)) : KillResult :=
  { sdb := revoke_session ctx.sdb sid
    logout_iframes := fc_iframes
    response_args :=
      match req.post_logout_redirect_uri with
      | some ruri =>
        match req.state with
        | some st => ruri ++ "?" ++ urlencode [("state", st)]
        | none => ruri
      | none => ctx.post_logout_page.getD ctx.issuer }

/-- The claims of a verified introspected JWT, as
`Introspection.process_request` reads them: the optional `exp` claim and
the optional `sub` claim (a missing `sub` raises KeyError inside the
release block). -/
structure JwtInfo where
  exp : Option Nat
  sub : Option String
deriving DecidableEq, Repr

/-- Result of introspection: `{'active': False}` or the active response
with the token claims and the optional released username. -/
inductive IntroResult where
  | inactive
  | active (info : JwtInfo) (username : Option String)
deriving DecidableEq, Repr

/-- Context of the introspection endpoint: the current time
(`utc_time_sans_frac`), whether the `release` kwarg asks for `username`,
and the user-info collaborator's `search` by sub (`none` models the
KeyError it raises on a failed lookup). -/
structure IntrospectionCtx where
  now : Nat
  release_username : Bool
  userinfo_search : String → Option String

/-- `Introspection.process_request` (introspection.py lines 34 to 69):
an unverifiable token (`none`, any exception from `JWT.unpack`) answers
inactive; a verifiable token with `exp` earlier than now answers
inactive; with username release requested, a KeyError from the `sub`
read or the user-info search answers inactive; otherwise the response is
the claims marked active, with the username attached when released. -/
def introspection_process_request (ctx : IntrospectionCtx) (tok : Option JwtInfo) :
    IntroResult :=
  match tok with
  | none => IntroResult.inactive
  | some info =>
    let expired := match info.exp with
      | some e => decide (e < ctx.now)
      | none => false
    if expired then IntroResult.inactive
    else if ctx.release_username then
      match info.sub with
      | none => IntroResult.inactive
      | some sub =>
        match ctx.userinfo_search sub with
        | none => IntroResult.inactive
        | some uname => IntroResult.active info (some uname)
    else IntroResult.active info none

/-- The last session id in an SSO enumeration whose session record
belongs to client `c` — the sid `logout_all_clients` ends up notifying
that client with. -/
def last_sid_for (ctx : EndpointContext) (c : String) : List String → Option String
  | [] => none
  | usid :: rest =>
    match last_sid_for ctx c rest with
    | some x => some x
    | none =>
      match alookup usid ctx.sdb with
      | some s => if s.client_id = c then some usid else none
      | none => none

/-! Concrete fixtures used to evaluate the model on the scenarios of the
spec: a provider at `https://example.com` with relying parties `rp1`
(back-channel, a registered post-logout redirect URI), `rp2`
(back-channel, provider-default algorithm), `rp3` (front-channel with
session parameters required), `rp4` (no logout URIs), and user `alice`
signed in at all of them. -/

/-- Registration of `rp1`: back-channel logout, one registered
post-logout redirect URI, own signing algorithm. -/
def rp1Bc : ClientInfo :=
  { client_id := "rp1"
    backchannel_logout_uri := some "https://rp1/back"
    frontchannel_logout_uri := none
    frontchannel_logout_session_required := none
    post_logout_redirect_uris := [("https://rp1/post", none)]
    id_token_signed_response_alg := some "RS256" }

/-- Registration of `rp2`: back-channel logout, no own algorithm. -/
def rp2Bc : ClientInfo :=
  { client_id := "rp2"
    backchannel_logout_uri := some "https://rp2/back"
    frontchannel_logout_uri := none
    frontchannel_logout_session_required := none
    post_logout_redirect_uris := []
    id_token_signed_response_alg := none }

/-- Registration of `rp3`: front-channel logout with the session
parameters required. -/
def rp3Fc : ClientInfo :=
  { client_id := "rp3"
    backchannel_logout_uri := none
    frontchannel_logout_uri := some "https://rp3/logout"
    frontchannel_logout_session_required := some true
    post_logout_redirect_uris := []
    id_token_signed_response_alg := none }

/-- Registration of `rp4`: no logout URIs at all. -/
def rp4None : ClientInfo :=
  { client_id := "rp4"
    backchannel_logout_uri := none
    frontchannel_logout_uri := none
    frontchannel_logout_session_required := none
    post_logout_redirect_uris := []
    id_token_signed_response_alg := none }

/-- Demo provider context: `alice` holds sessions `s1..s4`, one per
relying party. -/
def ctxDemo : EndpointContext :=
  { issuer := "https://example.com"
    sdb := [("s1", { client_id := "rp1", revoked := false }),
            ("s2", { client_id := "rp2", revoked := false }),
            ("s3", { client_id := "rp3", revoked := false }),
            ("s4", { client_id := "rp4", revoked := false })]
    cdb := [("rp1", rp1Bc), ("rp2", rp2Bc), ("rp3", rp3Fc), ("rp4", rp4None)]
    sso_sids_by_sub := fun s => if s = "alice" then ["s1", "s2", "s3", "s4"] else []
    sso_uid_by_sid := fun s =>
      if s = "s1" ∨ s = "s2" ∨ s = "s3" ∨ s = "s4" then some "alice" else none
    sso_sids_by_uid := fun u => if u = "alice" then ["s1", "s2", "s3", "s4"] else []
    sso_sub_by_sid := fun s =>
      if s = "s1" ∨ s = "s2" ∨ s = "s3" ∨ s = "s4" then some "alice" else none
    id_token_signing_alg_values_supported := ["ES256"]
    signing_alg := "ES256"
    signing_key := 7
    post_logout_page := none }

/-- Registration with BOTH logout channels configured. -/
def rpBoth : ClientInfo :=
  { client_id := "rp"
    backchannel_logout_uri := some "https://rp/back"
    frontchannel_logout_uri := some "https://rp/front"
    frontchannel_logout_session_required := some true
    post_logout_redirect_uris := []
    id_token_signed_response_alg := some "RS256" }

/-- Context with the single both-channel client `rp` and one session. -/
def ctxBoth : EndpointContext :=
  { issuer := "https://example.com"
    sdb := [("s1", { client_id := "rp", revoked := false })]
    cdb := [("rp", rpBoth)]
    sso_sids_by_sub := fun s => if s = "alice" then ["s1"] else []
    sso_uid_by_sid := fun s => if s = "s1" then some "alice" else none
    sso_sids_by_uid := fun u => if u = "alice" then ["s1"] else []
    sso_sub_by_sid := fun s => if s = "s1" then some "alice" else none
    id_token_signing_alg_values_supported := ["ES256"]
    signing_alg := "ES256"
    signing_key := 7
    post_logout_page := none }

/-- Registration of a front-channel-only `rp1`, for the end-to-end
single-client scenario of the spec. -/
def rp1Fc : ClientInfo :=
  { client_id := "rp1"
    backchannel_logout_uri := none
    frontchannel_logout_uri := some "https://rp1/logout"
    frontchannel_logout_session_required := some true
    post_logout_redirect_uris := []
    id_token_signed_response_alg := none }

/-- Context for the end-to-end single-client scenario: session `s1` of
`alice` at the front-channel client `rp1`. -/
def ctxFC : EndpointContext :=
  { issuer := "https://example.com"
    sdb := [("s1", { client_id := "rp1", revoked := false })]
    cdb := [("rp1", rp1Fc)]
    sso_sids_by_sub := fun s => if s = "alice" then ["s1"] else []
    sso_uid_by_sid := fun s => if s = "s1" then some "alice" else none
    sso_sids_by_uid := fun u => if u = "alice" then ["s1"] else []
    sso_sub_by_sid := fun s => if s = "s1" then some "alice" else none
    id_token_signing_alg_values_supported := ["ES256"]
    signing_alg := "ES256"
    signing_key := 7
    post_logout_page := none }

/-- Back-channel-only registration keyed `rp`. -/
def rpBc : ClientInfo :=
  { client_id := "rp"
    backchannel_logout_uri := some "https://rp/back"
    frontchannel_logout_uri := none
    frontchannel_logout_session_required := none
    post_logout_redirect_uris := []
    id_token_signed_response_alg := some "RS256" }

/-- Context where `alice` has TWO live sessions `s1`, `s2` with the same
client `rp`. -/
def ctxDup : EndpointContext :=
  { issuer := "https://example.com"
    sdb := [("s1", { client_id := "rp", revoked := false }),
            ("s2", { client_id := "rp", revoked := false })]
    cdb := [("rp", rpBc)]
    sso_sids_by_sub := fun s => if s = "alice" then ["s1", "s2"] else []
    sso_uid_by_sid := fun s => if s = "s1" ∨ s = "s2" then some "alice" else none
    sso_sids_by_uid := fun u => if u = "alice" then ["s1", "s2"] else []
    sso_sub_by_sid := fun s => if s = "s1" ∨ s = "s2" then some "alice" else none
    id_token_signing_alg_values_supported := ["ES256"]
    signing_alg := "ES256"
    signing_key := 7
    post_logout_page := none }

/-- An end-session request with no hint, no redirect URI, no state. -/
def reqNone : EndSessionReq :=
  { id_token_hint_sub := none, post_logout_redirect_uri := none, state := none }

/-- An end-session request carrying only an `id_token_hint` whose
verified `sub` is `alice`. -/
def reqHint : EndSessionReq :=
  { id_token_hint_sub := some "alice", post_logout_redirect_uri := none, state := none }

/-- An HTTP collaborator whose relying parties all answer 200. -/
def httpc200 : String → String → Nat := fun _ _ => 200

/-- An HTTP collaborator where the endpoint of `rp1` answers 500 and
every other relying party answers 200. -/
def httpc500rp1 : String → String → Nat :=
  fun u _ => if u = "https://rp1/back" then 500 else 200

/-- The confirmation token `process_request` issues for `ctxDemo`, a
cookie session `s1` and an empty request. -/
def tokenDemo : SignedJWT :=
  jwt_pack 7 "https://example.com" "https://example.com" "ES256"
    { sid := "s1", client_id := "rp1", redirect_uri := UriVal.pair "https://rp1/post" none }

/-- Introspection context fixture: current time 1000, username release
requested, user info only for `alice`. -/
def ictxDemo : IntrospectionCtx :=
  { now := 1000
    release_username := true
    userinfo_search := fun s => if s = "alice" then some "Alice Doe" else none }

/-- A verifiable token that expired at 999 (now is 1000). -/
def jwtExpired : JwtInfo := { exp := some 999, sub := some "alice" }

/-- A verifiable, unexpired token of `bob`, for whom the user-info
lookup fails. -/
def jwtBob : JwtInfo := { exp := some 2000, sub := some "bob" }

/-- Every confirmation token `process_request` returns is the pack of
its own payload under the endpoint signing key and algorithm, self-issued
and self-audienced. -/
theorem process_request_ok_shape (ctx : EndpointContext) (req : EndSessionReq)
    (cookie : CookieResult) (t : SignedJWT)
    (h : process_request ctx req cookie = Except.ok t) :
    t = jwt_pack ctx.signing_key ctx.issuer ctx.issuer ctx.signing_alg t.payload := by
  unfold process_request at h
  cases h1 : resolve_sid ctx req cookie with
  | error e => rw [h1] at h; simp [Bind.bind, Except.bind] at h
  | ok sid =>
    rw [h1] at h
    simp only [Bind.bind, Except.bind] at h
    cases h2 : alookup sid ctx.sdb with
    | none => rw [h2] at h; simp [Bind.bind, Except.bind] at h
    | some s =>
      rw [h2] at h
      simp only [Bind.bind, Except.bind] at h
      cases h3 : alookup s.client_id ctx.cdb with
      | none => rw [h3] at h; simp [Bind.bind, Except.bind] at h
      | some cinfo =>
        rw [h3] at h
        simp only [Bind.bind, Except.bind] at h
        cases h4 : resolve_redirect cinfo req.post_logout_redirect_uri with
        | error e => rw [h4] at h; simp [Bind.bind, Except.bind] at h
        | ok uri =>
          rw [h4] at h
          simp only [Bind.bind, Except.bind, Except.ok.injEq] at h
          subst h
          rfl

/-- C1: a request whose session cookie resolves to one sid while its
id_token_hint resolves to a different sid is rejected by
`process_request` with the session-mismatch error; with only a cookie
the cookie sid is the effective sid; with only a hint the hint sid is
the effective sid. -/
theorem c1_cookie_hint_reconciliation :
    (∀ (ctx : EndpointContext) (req : EndSessionReq) (sidA sub sidB : String)
        (rest : List String),
        sidA ≠ "" →
        req.id_token_hint_sub = some sub →
        ctx.sso_sids_by_sub sub = sidB :: rest →
        sidB ≠ sidA →
        process_request ctx req (CookieResult.ok sidA) =
          Except.error LogoutError.SessionMismatch)
  ∧ (∀ (ctx : EndpointContext) (req : EndSessionReq) (sidA : String),
        req.id_token_hint_sub = none →
        resolve_sid ctx req (CookieResult.ok sidA) = Except.ok sidA)
  ∧ (∀ (ctx : EndpointContext) (req : EndSessionReq) (sub sidB : String)
        (rest : List String),
        req.id_token_hint_sub = some sub →
        ctx.sso_sids_by_sub sub = sidB :: rest →
        resolve_sid ctx req CookieResult.missing = Except.ok sidB) := by
  refine ⟨?_, ?_, ?_⟩
  · intro ctx req sidA sub sidB rest hA hh hs hne
    have hr : resolve_sid ctx req (CookieResult.ok sidA) =
        Except.error LogoutError.SessionMismatch := by
      simp [resolve_sid, Bind.bind, Except.bind, hh, hs, hA, hne]
    unfold process_request
    rw [hr]
    simp [Bind.bind, Except.bind]
  · intro ctx req sidA hh
    simp [resolve_sid, Bind.bind, Except.bind, hh]
  · intro ctx req sub sidB rest hh hs
    simp [resolve_sid, Bind.bind, Except.bind, hh, hs]

/-- C1 witness: in `ctxDemo`, a cookie for `s2` with a hint resolving to
`s1` is rejected; a cookie alone yields `s1`; a hint alone yields
`s1`. -/
theorem c1_cookie_hint_reconciliation_witness :
    process_request ctxDemo reqHint (CookieResult.ok "s2") =
      Except.error LogoutError.SessionMismatch
  ∧ resolve_sid ctxDemo reqNone (CookieResult.ok "s1") = Except.ok "s1"
  ∧ resolve_sid ctxDemo reqHint CookieResult.missing = Except.ok "s1" :=
  ⟨c1_cookie_hint_reconciliation.1 ctxDemo reqHint "s2" "alice" "s1" ["s2", "s3", "s4"]
      (by decide) rfl rfl (by decide),
   c1_cookie_hint_reconciliation.2.1 ctxDemo reqNone "s1" rfl,
   c1_cookie_hint_reconciliation.2.2 ctxDemo reqHint "alice" "s1" ["s2", "s3", "s4"]
      rfl rfl⟩

/-- C6 counterexample: a request with neither a session cookie nor an
id_token_hint does NOT continue — on the concrete store of `ctxDemo`
(which has sessions `s1..s4` and none under the empty sid)
`process_request` fails with the unknown-session error, since the empty
effective sid resolves no session. -/
theorem c6_counterexample :
    process_request ctxDemo reqNone CookieResult.missing =
      Except.error LogoutError.UnknownSession := by
  rfl

/-- C6 amended: with neither cookie nor hint the effective sid is the
empty string, but `process_request` then fails with `UnknownSession`
whenever the session store has no entry under the empty sid, instead of
continuing to produce a redirect. -/
theorem c6_empty_sid_fails :
    (∀ (ctx : EndpointContext) (req : EndSessionReq),
        req.id_token_hint_sub = none →
        resolve_sid ctx req CookieResult.missing = Except.ok "")
  ∧ (∀ (ctx : EndpointContext) (req : EndSessionReq),
        req.id_token_hint_sub = none →
        alookup "" ctx.sdb = none →
        process_request ctx req CookieResult.missing =
          Except.error LogoutError.UnknownSession) := by
  constructor
  · intro ctx req hh
    simp [resolve_sid, Bind.bind, Except.bind, hh]
  · intro ctx req hh hdb
    have hr : resolve_sid ctx req CookieResult.missing = Except.ok "" := by
      simp [resolve_sid, Bind.bind, Except.bind, hh]
    unfold process_request
    rw [hr]
    simp [Bind.bind, Except.bind, hdb]

/-- C6 amended witness: the empty effective sid and the failure, on
`ctxDemo`. -/
theorem c6_empty_sid_fails_witness :
    resolve_sid ctxDemo reqNone CookieResult.missing = Except.ok ""
  ∧ process_request ctxDemo reqNone CookieResult.missing =
      Except.error LogoutError.UnknownSession :=
  ⟨c6_empty_sid_fails.1 ctxDemo reqNone rfl,
   c6_empty_sid_fails.2 ctxDemo reqNone rfl rfl⟩

/-- C3: verifying the confirmation token issued by `process_request`
with `unpack_signed_jwt` recovers its `{sid, client_id, redirect_uri}`
payload unchanged, and a confirmation token whose payload was altered in
any way after signing fails verification with
`SignatureVerificationFailure`. -/
theorem c3_confirmation_roundtrip :
    (∀ (ctx : EndpointContext) (req : EndSessionReq) (cookie : CookieResult)
        (t : SignedJWT),
        process_request ctx req cookie = Except.ok t →
        unpack_signed_jwt ctx t = Except.ok t.payload)
  ∧ (∀ (ctx : EndpointContext) (req : EndSessionReq) (cookie : CookieResult)
        (t : SignedJWT) (p' : ConfirmPayload),
        process_request ctx req cookie = Except.ok t →
        p' ≠ t.payload →
        unpack_signed_jwt ctx { t with payload := p' } =
          Except.error LogoutError.SignatureVerificationFailure) := by
  constructor
  · intro ctx req cookie t h
    have hs := process_request_ok_shape ctx req cookie t h
    rw [hs]
    simp [unpack_signed_jwt, jwt_verify, jwt_pack]
  · intro ctx req cookie t p' h hne
    have hs := process_request_ok_shape ctx req cookie t h
    have htag : t.tag = (ctx.signing_key, t.payload) := by rw [hs]; rfl
    have halg : t.alg = ctx.signing_alg := by rw [hs]; rfl
    simp only [unpack_signed_jwt, jwt_verify]
    rw [if_neg]
    intro hc
    have := hc.2
    simp only [htag] at this
    exact hne (Prod.mk.injEq .. ▸ this).2.symm

/-- C3 witness: the concrete confirmation token for session `s1` of
`ctxDemo` round-trips, and the same token with its payload sid changed
to `s2` fails verification. -/
theorem c3_confirmation_roundtrip_witness :
    unpack_signed_jwt ctxDemo tokenDemo = Except.ok tokenDemo.payload
  ∧ unpack_signed_jwt ctxDemo
      { tokenDemo with payload :=
          { sid := "s2", client_id := "rp1",
            redirect_uri := UriVal.pair "https://rp1/post" none } } =
      Except.error LogoutError.SignatureVerificationFailure :=
  ⟨c3_confirmation_roundtrip.1 ctxDemo reqNone (CookieResult.ok "s1") tokenDemo rfl,
   c3_confirmation_roundtrip.2 ctxDemo reqNone (CookieResult.ok "s1") tokenDemo
      { sid := "s2", client_id := "rp1",
        redirect_uri := UriVal.pair "https://rp1/post" none } rfl (by decide)⟩

/-- C4 counterexample: the query string is NOT ignored in the
post-logout redirect URI check.  `rp1Bc` has
`("https://rp1/post", none)` registered, so the requested URI
`https://rp1/post?x=1` is present in the registered set once its query
string is ignored — yet `resolve_redirect` (the check of
`process_request` lines 228 to 236) rejects it with
`UnregisteredRedirectURI`, because the split pair
`("https://rp1/post", some "x=1")` is compared for exact membership. -/
theorem c4_counterexample :
    splitquery "https://rp1/post?x=1" = ("https://rp1/post", some "x=1")
  ∧ ("https://rp1/post", (none : Option String)) ∈ rp1Bc.post_logout_redirect_uris
  ∧ resolve_redirect rp1Bc (some "https://rp1/post?x=1") =
      Except.error LogoutError.UnregisteredRedirectURI := by
  refine ⟨by decide, by decide, rfl⟩

/-- C4 amended: a requested post-logout redirect URI succeeds exactly
when its (base, query) split is literally one of the registered entries
— the query string takes part in the match instead of being ignored —
and on success the URI is returned unchanged, query string included; a
non-member split fails with `UnregisteredRedirectURI`; an absent request
URI selects the first registered entry. -/
theorem c4_redirect_allowlist :
    (∀ (cinfo : ClientInfo) (u : String),
        splitquery u ∉ cinfo.post_logout_redirect_uris →
        resolve_redirect cinfo (some u) =
          Except.error LogoutError.UnregisteredRedirectURI)
  ∧ (∀ (cinfo : ClientInfo) (u : String),
        splitquery u ∈ cinfo.post_logout_redirect_uris →
        resolve_redirect cinfo (some u) = Except.ok (UriVal.str u))
  ∧ (∀ (cinfo : ClientInfo) (b : String) (q : Option String)
        (rest : List (String × Option String)),
        cinfo.post_logout_redirect_uris = (b, q) :: rest →
        resolve_redirect cinfo none = Except.ok (UriVal.pair b q)) := by
  refine ⟨?_, ?_, ?_⟩
  · intro cinfo u hmem
    simp [resolve_redirect, hmem]
  · intro cinfo u hmem
    simp [resolve_redirect, hmem]
  · intro cinfo b q rest hreg
    simp [resolve_redirect, hreg]

/-- C4 amended witness: against the registered set of `rp1Bc`, the URI
with a query fails, the exact registered URI succeeds unchanged, and an
absent URI selects the first registered entry. -/
theorem c4_redirect_allowlist_witness :
    resolve_redirect rp1Bc (some "https://rp1/post?x=1") =
      Except.error LogoutError.UnregisteredRedirectURI
  ∧ resolve_redirect rp1Bc (some "https://rp1/post") =
      Except.ok (UriVal.str "https://rp1/post")
  ∧ resolve_redirect rp1Bc none =
      Except.ok (UriVal.pair "https://rp1/post" none) :=
  ⟨c4_redirect_allowlist.1 rp1Bc "https://rp1/post?x=1" (by decide),
   c4_redirect_allowlist.2.1 rp1Bc "https://rp1/post" (by decide),
   c4_redirect_allowlist.2.2 rp1Bc "https://rp1/post" none [] rfl⟩

/-- The delivery loop POSTs to the same URLs with the same bodies
whatever status codes the relying parties answer: the answers steer
nothing. -/
theorem post_bc_logouts_urls_bodies (f g : String → String → Nat)
    (l : List (String × String × BackChannelToken)) :
    (post_bc_logouts f l).map (fun p => (p.url, p.body)) =
      (post_bc_logouts g l).map (fun p => (p.url, p.body)) := by
  induction l with
  | nil => rfl
  | cons x rest ih =>
    obtain ⟨cid, url, tok⟩ := x
    simp [post_bc_logouts, ih]

/-- C2: whenever a client registration has a back-channel logout URI,
single-client logout selects the back channel: any successful
`logout_from_client` yields zero iframes — and also zero HTTP POSTs,
see the C2 divergence; the all-clients delivery loop performs exactly
one POST per back-channel entry; on the concrete both-channel client
`rp`, `logout_from_client` returns zero iframes and performs no POST
while `logout_all_clients` performs the one back-channel POST and
returns zero iframes. -/
theorem c2_channel_priority :
    (∀ (ctx : EndpointContext) (sid cid : String) (cinfo : ClientInfo)
        (r : Option (List String) × List BCPost),
        alookup cid ctx.cdb = some cinfo →
        cinfo.backchannel_logout_uri.isSome = true →
        logout_from_client ctx sid cid = Except.ok r →
        r = (some [], []))
  ∧ (∀ (httpc : String → String → Nat)
        (l : List (String × String × BackChannelToken)),
        (post_bc_logouts httpc l).length = l.length)
  ∧ logout_from_client ctxBoth "s1" "rp" = Except.ok (some [], [])
  ∧ logout_all_clients httpc200 ctxBoth "s1" "rp" =
      Except.ok ([{ url := "https://rp/back",
                    body := "logout_token=RS256.https://example.com.rp.alice.s1",
                    status := 200 }], []) := by
  refine ⟨?_, ?_, rfl, rfl⟩
  · intro ctx sid cid cinfo r hl hbc h
    unfold logout_from_client at h
    rw [hl] at h
    simp only [Bind.bind, Except.bind, hbc, if_true] at h
    cases h2 : ctx.sso_sub_by_sid sid with
    | none => rw [h2] at h; simp at h
    | some sub =>
      rw [h2] at h
      simp only [Bind.bind, Except.bind] at h
      cases h3 : do_back_channel_logout ctx cinfo sub sid with
      | error e => rw [h3] at h; simp at h
      | ok bc =>
        rw [h3] at h
        simp only [Except.ok.injEq] at h
        exact h.symm
  · intro httpc l
    induction l with
    | nil => rfl
    | cons x rest ih =>
      obtain ⟨cid, url, tok⟩ := x
      simp [post_bc_logouts, ih]

/-- C2 witness: the general conjuncts applied at the both-channel
client `rp` of `ctxBoth` and at its one-element delivery list. -/
theorem c2_channel_priority_witness :
    ((some [], ([] : List BCPost)) : Option (List String) × List BCPost) = (some [], [])
  ∧ (post_bc_logouts httpc200
      [("rp", "https://rp/back",
        { iss := "https://example.com", aud := "rp", alg := "RS256",
          sub := "alice", sid := "s1" })]).length = 1 :=
  ⟨c2_channel_priority.1 ctxBoth "s1" "rp" rpBoth (some [], []) rfl rfl rfl,
   c2_channel_priority.2.1 httpc200
      [("rp", "https://rp/back",
        { iss := "https://example.com", aud := "rp", alg := "RS256",
          sub := "alice", sid := "s1" })]⟩

/-- C5: the outcome of all-clients logout — which URLs are POSTed with
which bodies, which iframes are returned, and whether the call succeeds
— is identical under any two HTTP collaborators, so a relying party
answering 500 (or any 4xx/5xx) neither stops later deliveries nor drops
iframes nor fails the call; revocation by `kill_session` marks the sid
revoked in the store regardless; concretely, with `rp1` answering 500,
both back-channel POSTs of `ctxDemo` are still performed, the `rp3`
iframe is still returned, and `kill_session` still revokes `s1`. -/
theorem c5_partial_failure_isolation :
    (∀ (f g : String → String → Nat) (ctx : EndpointContext) (sid cid : String),
        (logout_all_clients f ctx sid cid).map
            (fun r => (r.1.map (fun p => (p.url, p.body)), r.2)) =
          (logout_all_clients g ctx sid cid).map
            (fun r => (r.1.map (fun p => (p.url, p.body)), r.2)))
  ∧ (∀ (sdb : List (String × SessionRec)) (sid : String) (s : SessionRec),
        alookup sid sdb = some s →
        alookup sid (revoke_session sdb sid) = some { s with revoked := true })
  ∧ logout_all_clients httpc500rp1 ctxDemo "s1" "rp1" =
      Except.ok
        ([{ url := "https://rp1/back",
            body := "logout_token=RS256.https://example.com.rp1.alice.s1",
            status := 500 },
          { url := "https://rp2/back",
            body := "logout_token=ES256.https://example.com.rp2.alice.s2",
            status := 200 }],
         ["<iframe src=\"https://rp3/logout?iss=https%3A%2F%2Fexample.com&sid=s3\">"])
  ∧ alookup "s1"
      (kill_session ctxDemo "s1" reqNone
        (some ["<iframe src=\"https://rp3/logout?iss=https%3A%2F%2Fexample.com&sid=s3\">"])).sdb =
      some { client_id := "rp1", revoked := true } := by
  refine ⟨?_, ?_, rfl, rfl⟩
  · intro f g ctx sid cid
    unfold logout_all_clients
    cases h1 : ctx.sso_uid_by_sid sid with
    | none => rfl
    | some uid =>
      simp only [Bind.bind, Except.bind]
      cases h2 : build_client_sid ctx (ctx.sso_sids_by_uid uid) [] with
      | error e => rfl
      | ok cs =>
        cases h3 : classify_clients ctx cs with
        | error e => simp [h3, Except.map]
        | ok cls =>
          simp [h3, Except.map, post_bc_logouts_urls_bodies f g cls.1]
  · intro sdb sid s h
    induction sdb with
    | nil => simp [alookup] at h
    | cons p rest ih =>
      obtain ⟨k, v⟩ := p
      simp only [revoke_session, List.map_cons]
      by_cases hk : k = sid
      · subst hk
        have hv : v = s := by simpa [alookup] using h
        subst hv
        have hc : ((k, v).1 = k) := rfl
        rw [if_pos hc]
        simp [alookup]
      · have h' : alookup sid rest = some s := by simpa [alookup, hk] using h
        simp only [hk, if_false, reduceIte]
        simp only [alookup, hk, if_false, reduceIte]
        exact ih h'

/-- C5 witness: the status-invariance applied at `ctxDemo` with the
all-200 and the rp1-fails collaborators, and the revocation applied at
the concrete store of `ctxDemo`. -/
theorem c5_partial_failure_isolation_witness :
    (logout_all_clients httpc500rp1 ctxDemo "s1" "rp1").map
        (fun r => (r.1.map (fun p => (p.url, p.body)), r.2)) =
      (logout_all_clients httpc200 ctxDemo "s1" "rp1").map
        (fun r => (r.1.map (fun p => (p.url, p.body)), r.2))
  ∧ alookup "s1" (revoke_session ctxDemo.sdb "s1") =
      some { client_id := "rp1", revoked := true } :=
  ⟨c5_partial_failure_isolation.1 httpc500rp1 httpc200 ctxDemo "s1" "rp1",
   c5_partial_failure_isolation.2.1 ctxDemo.sdb "s1"
      { client_id := "rp1", revoked := false } rfl⟩

/-- C9: a client registration with neither logout URI makes
`logout_from_client`, and hence `do_verified_logout` with `alla` false,
return no list at all (Python `None`), not an empty iframe list. -/
theorem c9_no_channel_returns_none :
    ∀ (httpc : String → String → Nat) (ctx : EndpointContext) (sid cid : String)
      (cinfo : ClientInfo),
      alookup cid ctx.cdb = some cinfo →
      cinfo.backchannel_logout_uri = none →
      cinfo.frontchannel_logout_uri = none →
      do_verified_logout httpc ctx sid cid false = Except.ok (none, [])
      ∧ logout_from_client ctx sid cid = Except.ok (none, []) := by
  intro httpc ctx sid cid cinfo hl hb hf
  have hfc : logout_from_client ctx sid cid = Except.ok (none, []) := by
    unfold logout_from_client
    rw [hl]
    simp [Bind.bind, Except.bind, hb, hf]
  exact ⟨by simp [do_verified_logout, hfc], hfc⟩

/-- C9 witness: client `rp4` of `ctxDemo` has no logout URIs and
single-client logout for its session `s4` returns `None`. -/
theorem c9_no_channel_returns_none_witness :
    do_verified_logout httpc200 ctxDemo "s4" "rp4" false = Except.ok (none, [])
    ∧ logout_from_client ctxDemo "s4" "rp4" = Except.ok (none, []) :=
  c9_no_channel_returns_none httpc200 ctxDemo "s4" "rp4" rp4None rfl rfl rfl

/-- C8: with `frontchannel_logout_session_required` set, the iframe src
is the registered URI with `iss` (the provider issuer) and `sid` (that
session id) urlencoded onto it as query parameters; otherwise the bare
URI is used; in the single-client scenario (`rp1` at
`https://rp1/logout`, session required, issuer `https://example.com`)
the returned list is exactly the one iframe with
`iss=https%3A%2F%2Fexample.com&sid=s1`. -/
theorem c8_front_channel_iframe :
    (∀ (cinfo : ClientInfo) (frontchannel_logout_uri iss sid : String),
        cinfo.frontchannel_logout_uri = some frontchannel_logout_uri →
        cinfo.frontchannel_logout_session_required = some true →
        do_front_channel_logout_iframe cinfo iss sid =
          some ("<iframe src=\"" ++ frontchannel_logout_uri ++ "?" ++
            ("iss=" ++ quote_plus iss ++ "&" ++ ("sid=" ++ quote_plus sid)) ++ "\">"))
  ∧ (∀ (cinfo : ClientInfo) (frontchannel_logout_uri iss sid : String),
        cinfo.frontchannel_logout_uri = some frontchannel_logout_uri →
        (cinfo.frontchannel_logout_session_required = none ∨
         cinfo.frontchannel_logout_session_required = some false) →
        do_front_channel_logout_iframe cinfo iss sid =
          some ("<iframe src=\"" ++ frontchannel_logout_uri ++ "\">"))
  ∧ logout_from_client ctxFC "s1" "rp1" =
      Except.ok
        (some ["<iframe src=\"https://rp1/logout?iss=https%3A%2F%2Fexample.com&sid=s1\">"],
         []) := by
  refine ⟨?_, ?_, rfl⟩
  · intro cinfo frontchannel_logout_uri iss sid h1 h2
    simp only [do_front_channel_logout_iframe, h1, h2, Option.map_some,
      Option.getD_some, if_true, Option.some.injEq]
    rfl
  · intro cinfo frontchannel_logout_uri iss sid h1 h2
    cases h2 with
    | inl h2 => simp [do_front_channel_logout_iframe, h1, h2]
    | inr h2 => simp [do_front_channel_logout_iframe, h1, h2]

/-- C8 witness: the session-required and bare branches evaluated at the
registrations `rp3Fc` and `rp2Bc`-style data of the demo provider. -/
theorem c8_front_channel_iframe_witness :
    do_front_channel_logout_iframe rp3Fc "https://example.com" "s3" =
      some ("<iframe src=\"https://rp3/logout?" ++
        ("iss=" ++ quote_plus "https://example.com" ++ "&" ++
          ("sid=" ++ quote_plus "s3")) ++ "\">")
  ∧ do_front_channel_logout_iframe rp1Fc "https://example.com" "s1" =
      some ("<iframe src=\"https://rp1/logout?" ++
        ("iss=" ++ quote_plus "https://example.com" ++ "&" ++
          ("sid=" ++ quote_plus "s1")) ++ "\">") :=
  ⟨by
    have h := c8_front_channel_iframe.1 rp3Fc "https://rp3/logout"
      "https://example.com" "s3" rfl rfl
    simpa using h,
   by
    have h := c8_front_channel_iframe.1 rp1Fc "https://rp1/logout"
      "https://example.com" "s1" rfl rfl
    simpa using h⟩

/-- C7: introspection answers inactive rather than erroring for an
unverifiable token, for a verifiable token whose `exp` is earlier than
the current time, and for a token whose requested username enrichment
lookup fails — never a hard error or a partial success. -/
theorem c7_introspection_inactive_not_error :
    (∀ (ctx : IntrospectionCtx),
        introspection_process_request ctx none = IntroResult.inactive)
  ∧ (∀ (ctx : IntrospectionCtx) (info : JwtInfo) (e : Nat),
        info.exp = some e → e < ctx.now →
        introspection_process_request ctx (some info) = IntroResult.inactive)
  ∧ (∀ (ctx : IntrospectionCtx) (info : JwtInfo) (sub : String),
        ctx.release_username = true →
        info.sub = some sub →
        ctx.userinfo_search sub = none →
        introspection_process_request ctx (some info) = IntroResult.inactive) := by
  refine ⟨?_, ?_, ?_⟩
  · intro ctx
    rfl
  · intro ctx info e he hlt
    simp [introspection_process_request, he, hlt]
  · intro ctx info sub hrel hsub hsearch
    unfold introspection_process_request
    cases hx : info.exp with
    | none => simp [hrel, hsub, hsearch]
    | some e =>
      by_cases hlt : e < ctx.now
      · simp [hx, hlt]
      · simp [hx, hlt, hrel, hsub, hsearch]

/-- C7 witness: on `ictxDemo`, an unverifiable token, the expired token
of `alice` and the unexpired token of `bob` (whose user-info lookup
fails) all answer inactive. -/
theorem c7_introspection_inactive_not_error_witness :
    introspection_process_request ictxDemo none = IntroResult.inactive
  ∧ introspection_process_request ictxDemo (some jwtExpired) = IntroResult.inactive
  ∧ introspection_process_request ictxDemo (some jwtBob) = IntroResult.inactive :=
  ⟨c7_introspection_inactive_not_error.1 ictxDemo,
   c7_introspection_inactive_not_error.2.1 ictxDemo jwtExpired 999 rfl (by decide),
   c7_introspection_inactive_not_error.2.2 ictxDemo jwtBob "bob" rfl rfl rfl⟩

/-- Looking a key up after a Python dict assignment: the assigned key
maps to the new value, every other key is untouched. -/
theorem alookup_dictInsert {α : Type} (k c : String) (v : α) (l : List (String × α)) :
    alookup c (dictInsert k v l) = if k = c then some v else alookup c l := by
  induction l with
  | nil => simp [dictInsert, alookup]
  | cons p rest ih =>
    obtain ⟨k', v'⟩ := p
    by_cases hk : k' = k
    · subst hk
      by_cases hc : k' = c
      · subst hc
        simp [dictInsert, alookup]
      · simp [dictInsert, alookup, hc]
    · by_cases hc : k' = c
      · subst hc
        have hkc : ¬(k = k') := fun hh => hk hh.symm
        simp [dictInsert, alookup, hk, hkc]
      · simp [dictInsert, alookup, hk, hc, ih]

/-- Key membership after a Python dict assignment. -/
theorem mem_keys_dictInsert {α : Type} (k c : String) (v : α) (l : List (String × α)) :
    c ∈ (dictInsert k v l).map Prod.fst ↔ c = k ∨ c ∈ l.map Prod.fst := by
  induction l with
  | nil => simp [dictInsert]
  | cons p rest ih =>
    obtain ⟨k', v'⟩ := p
    by_cases hk : k' = k
    · subst hk
      simp [dictInsert]
    · simp [dictInsert, hk, ih]
      tauto

/-- A Python dict assignment keeps the keys without duplicates. -/
theorem keys_nodup_dictInsert {α : Type} (k : String) (v : α) (l : List (String × α))
    (h : (l.map Prod.fst).Nodup) : ((dictInsert k v l).map Prod.fst).Nodup := by
  induction l with
  | nil => simp [dictInsert]
  | cons p rest ih =>
    obtain ⟨k', v'⟩ := p
    simp only [List.map_cons, List.nodup_cons] at h
    by_cases hk : k' = k
    · subst hk
      simp only [dictInsert, eq_self_iff_true, if_true, List.map_cons, List.nodup_cons]
      exact ⟨h.1, h.2⟩
    · simp only [dictInsert, hk, if_false, reduceIte, List.map_cons, List.nodup_cons]
      refine ⟨?_, ih h.2⟩
      intro hmem
      rcases (mem_keys_dictInsert k k' v rest).1 hmem with h1 | h1
      · exact hk h1
      · exact h.1 h1

/-- The `_client_sid` accumulation resolves each client to the LAST of
its session ids in the SSO enumeration, keeping other keys of the
accumulator. -/
theorem build_client_sid_alookup (ctx : EndpointContext) :
    ∀ (sids : List String) (acc d : List (String × String)),
      build_client_sid ctx sids acc = Except.ok d →
      ∀ c, alookup c d =
        match last_sid_for ctx c sids with
        | some x => some x
        | none => alookup c acc := by
  intro sids
  induction sids with
  | nil =>
    intro acc d h c
    simp only [build_client_sid, Except.ok.injEq] at h
    subst h
    simp [last_sid_for]
  | cons usid rest ih =>
    intro acc d h c
    simp only [build_client_sid] at h
    cases hs : alookup usid ctx.sdb with
    | none => rw [hs] at h; simp at h
    | some s =>
      rw [hs] at h
      have hd := ih (dictInsert s.client_id usid acc) d h c
      rw [hd]
      simp only [last_sid_for, hs]
      cases hl : last_sid_for ctx c rest with
      | some x => simp
      | none =>
        rw [alookup_dictInsert]
        by_cases hcc : s.client_id = c
        · simp [hcc]
        · simp [hcc]

/-- The `_client_sid` accumulation keeps the client keys free of
duplicates. -/
theorem build_client_sid_keys_nodup (ctx : EndpointContext) :
    ∀ (sids : List String) (acc d : List (String × String)),
      (acc.map Prod.fst).Nodup →
      build_client_sid ctx sids acc = Except.ok d →
      (d.map Prod.fst).Nodup := by
  intro sids
  induction sids with
  | nil =>
    intro acc d hn h
    simp only [build_client_sid, Except.ok.injEq] at h
    subst h
    exact hn
  | cons usid rest ih =>
    intro acc d hn h
    simp only [build_client_sid] at h
    cases hs : alookup usid ctx.sdb with
    | none => rw [hs] at h; simp at h
    | some s =>
      rw [hs] at h
      exact ih _ _ (keys_nodup_dictInsert _ _ _ hn) h

/-- C10: the all-clients target set is keyed by client id — the built
`_client_sid` map has no duplicate clients and maps each client to the
last of its session ids enumerated from the SSO index, so a client with
several live sessions is notified exactly once, for that last session
id; concretely, with `alice` holding the two sessions `s1`, `s2` at
`rp`, all-clients logout performs exactly one POST, carrying `s2`. -/
theorem c10_one_notification_last_sid :
    (∀ (ctx : EndpointContext) (sids : List String) (d : List (String × String)),
        build_client_sid ctx sids [] = Except.ok d →
        (d.map Prod.fst).Nodup ∧ ∀ c, alookup c d = last_sid_for ctx c sids)
  ∧ logout_all_clients httpc200 ctxDup "s1" "rp" =
      Except.ok ([{ url := "https://rp/back",
                    body := "logout_token=RS256.https://example.com.rp.alice.s2",
                    status := 200 }], []) := by
  constructor
  · intro ctx sids d h
    refine ⟨build_client_sid_keys_nodup ctx sids [] d (by simp) h, ?_⟩
    intro c
    rw [build_client_sid_alookup ctx sids [] d h c]
    cases last_sid_for ctx c sids <;> simp [alookup]
  · rfl

/-- C10 witness: in `ctxDup` the enumeration `["s1", "s2"]` builds the
map `[("rp", "s2")]` — duplicate-free keys and `rp` resolved to the last
session id `s2`. -/
theorem c10_one_notification_last_sid_witness :
    (([("rp", "s2")] : List (String × String)).map Prod.fst).Nodup
  ∧ alookup "rp" [("rp", "s2")] = last_sid_for ctxDup "rp" ["s1", "s2"] :=
  ⟨(c10_one_notification_last_sid.1 ctxDup ["s1", "s2"] [("rp", "s2")] rfl).1,
   (c10_one_notification_last_sid.1 ctxDup ["s1", "s2"] [("rp", "s2")] rfl).2 "rp"⟩

end Oidc
